import Mathlib

/-!
Verification of the concurrent fetch engine of
`scripts/local_test/local_data_extraction.py` and the column-rename step of
`scripts/local_test/local_data_ingestion.py`, as a shallow embedding in Lean.

The extraction core (`fetch_year`) is modelled as a function from the
environment of each attempt (the HTTP response or raised exception) to the
pair of (event trace, outcome).  The event trace records semaphore
acquire/release, network calls, backoff sleeps, the post-success pacing
sleep and artifact writes, in the exact order the Python code performs them,
so that properties about "what happens while the permit is held" and "no
artifact is written" are statements about the trace.
-/

/-- Environment of a single attempt inside the retry loop of `fetch_year`:
either the request raised a transport-level exception
(`aiohttp.ClientError` / `asyncio.TimeoutError`), or a response arrived
with some status code and a body that either decodes as JSON or raises
`json.JSONDecodeError`.  The `message` component is the server reason
string attached to a `ClientResponseError` by `resp.raise_for_status()`. -/
inductive AttemptEnv where
  | exc : AttemptEnv
  | resp (status : Nat) (message : String) (decodeOk : Bool) : AttemptEnv
deriving DecidableEq

/-- Observable events of one `fetch_year` execution: semaphore permit
acquire/release, issuing the network call, the backoff sleep
(`await asyncio.sleep(delay)`), the post-success pacing sleep
(`await asyncio.sleep(random.uniform(0.1, 0.5))`), a successful artifact
write by `save_local`, and a failed (logged and swallowed) write. -/
inductive Ev where
  | acquire : Ev
  | release : Ev
  | netCall : Ev
  | sleepBackoff : Ev
  | sleepPacing : Ev
  | writeArtifact : Ev
  | writeFail : Ev
deriving DecidableEq

/-- Outcome of one unit, structuring the `Optional[str]` return of
`fetch_year`: `skipped` and `success` are the two `return None` paths,
`permanentFailure` carries the status and message embedded in the
`"Permanent HTTP Error: {status} - {message}"` return value, and
`exhaustedRetries` is the final `return "Max retries exceeded"`. -/
inductive FetchResult where
  | skipped : FetchResult
  | success : FetchResult
  | permanentFailure (status : Nat) (message : String) : FetchResult
  | exhaustedRetries : FetchResult
deriving DecidableEq

/-- The `Optional[str]` value `fetch_year` actually returns: `none` on the
two success paths, an error string on the two failure paths.  `main`
counts a unit as failed exactly when the result is a string. -/
def toMessage : FetchResult → Option String
  | .skipped => none
  | .success => none
  | .permanentFailure s m => some ("Permanent HTTP Error: " ++ toString s ++ " - " ++ m)
  | .exhaustedRetries => some "Max retries exceeded"

/-- The retry loop of `fetch_year` (the `for attempt in range(1, max_retries + 1)`
body), one equation per branch of the Python code, with the event trace
recording the order of operations:

* `envs attempt = exc`: the request raises inside `async with semaphore`,
  so the permit is released by the context manager before the handler
  sleeps (`[acquire, netCall, release, sleepBackoff]`) and the loop retries;
* status 429 or 500–599: the code sleeps **inside** both context managers
  (`await asyncio.sleep(delay)` before `continue`), so the trace is
  `[acquire, netCall, sleepBackoff, release]` and the loop retries;
* other 4xx: `resp.raise_for_status()` propagates out of the semaphore
  block and is caught by the `ClientResponseError` handler, which returns
  the permanent failure — one attempt, no sleep, no write;
* status < 400 with a decodable body: `save_local` writes (or logs a
  swallowed `IOError` when the sink is broken, `writeOk = false`), the
  pacing sleep runs, and the function returns success — all still under
  the permit;
* status < 400 with a body that raises `json.JSONDecodeError`: the
  exception leaves the semaphore block, the generic transient handler
  sleeps outside the permit and the loop retries;
* status ≥ 600: no branch of the Python code matches, the loop falls
  through to the next attempt with no sleep and no delay update. -/
def fetch_loop (writeOk : Bool) (envs : Nat → AttemptEnv) :
    Nat → Nat → List Ev × FetchResult
  | _, 0 => ([], .exhaustedRetries)
  | attempt, remaining + 1 =>
    match envs attempt with
    | .exc =>
      let rest := fetch_loop writeOk envs (attempt + 1) remaining
      (.acquire :: .netCall :: .release :: .sleepBackoff :: rest.1, rest.2)
    | .resp s m decodeOk =>
      if s = 429 ∨ (500 ≤ s ∧ s ≤ 599) then
        let rest := fetch_loop writeOk envs (attempt + 1) remaining
        (.acquire :: .netCall :: .sleepBackoff :: .release :: rest.1, rest.2)
      else if 400 ≤ s ∧ s < 500 then
        ([.acquire, .netCall, .release], .permanentFailure s m)
      else if s < 400 then
        if decodeOk then
          if writeOk then
            ([.acquire, .netCall, .writeArtifact, .sleepPacing, .release], .success)
          else
            ([.acquire, .netCall, .writeFail, .sleepPacing, .release], .success)
        else
          let rest := fetch_loop writeOk envs (attempt + 1) remaining
          (.acquire :: .netCall :: .release :: .sleepBackoff :: rest.1, rest.2)
      else
        let rest := fetch_loop writeOk envs (attempt + 1) remaining
        (.acquire :: .netCall :: .release :: rest.1, rest.2)

/-- The whole of `fetch_year`: if the target artifact already exists the
function returns immediately (`skipped`, empty trace — no network call, no
write); otherwise it runs the retry loop starting at attempt 1 with
`max_retries` attempts available.  `writeOk` says whether the persistence
sink accepts the write (`save_local` swallows `IOError` when it does not). -/
def fetch_year (fileExists writeOk : Bool) (maxRetries : Nat)
    (envs : Nat → AttemptEnv) : List Ev × FetchResult :=
  if fileExists then ([], .skipped)
  else fetch_loop writeOk envs 1 maxRetries

/-- Scans a trace with the number of currently held semaphore permits and
reports whether a backoff sleep ever occurs while at least one permit is
held. -/
def sleepsWhileHeld : Nat → List Ev → Bool
  | _, [] => false
  | held, .acquire :: tl => sleepsWhileHeld (held + 1) tl
  | held, .release :: tl => sleepsWhileHeld (held - 1) tl
  | held, .sleepBackoff :: tl => held != 0 || sleepsWhileHeld held tl
  | held, .netCall :: tl => sleepsWhileHeld held tl
  | held, .sleepPacing :: tl => sleepsWhileHeld held tl
  | held, .writeArtifact :: tl => sleepsWhileHeld held tl
  | held, .writeFail :: tl => sleepsWhileHeld held tl

/-- Attempt environments whose transient failure is signalled by a status
code (429 rate limiting or a 5xx server error) rather than by an
exception. -/
def isStatusRetry : AttemptEnv → Prop
  | .exc => False
  | .resp s _ _ => s = 429 ∨ (500 ≤ s ∧ s ≤ 599)

/-- Attempt environments the spec classifies as transient: status 429,
status 500–599, a network/timeout exception, or a body-decode error on an
otherwise successful status. -/
def isTransientEnv : AttemptEnv → Prop
  | .exc => True
  | .resp s _ decodeOk => s = 429 ∨ (500 ≤ s ∧ s ≤ 599) ∨ (s < 400 ∧ decodeOk = false)

/-- Backoff policy `increase_delay` of the extraction script:
`min(delay * 2 * random.uniform(0.0, 1.0), 60.0)`, with the jitter draw
made an explicit argument.  Delays are modelled as rationals. -/
def increase_delay (delay jitter : ℚ) : ℚ :=
  min (delay * 2 * jitter) 60

/-- Number of failed units: in `main`, `failures` is incremented once for
every result that is a string (`isinstance(result, str)`). -/
def count_failures (results : List (Option String)) : Nat :=
  (results.filter (fun r => r.isSome)).length

/-- Final summary of a run, as built by `main`: `total_years`,
`successes = total_years - failures`, `failures`. -/
structure RunSummary where
  total : Nat
  successes : Nat
  failures : Nat
deriving DecidableEq

/-- Aggregation step of `main` over the gathered results. -/
def run_summary (results : List (Option String)) : RunSummary :=
  { total := results.length
    successes := results.length - count_failures results
    failures := count_failures results }

/-- Exit status of the extraction process as a function of the per-unit
results.  In the source, `main` only runs `logging.error(...)` inside
`if failures > 0:` and then returns `None`; neither `main` nor the
`__main__` guard ever calls `sys.exit`, so the interpreter exits with
status 0 on every normal completion, failures or not. -/
def process_exit_code (results : List (Option String)) : Nat :=
  if 0 < count_failures results then 0 else 0

/-- The orchestrator: `main` creates one `fetch_year` task per year in the
worklist and gathers all of them (`asyncio.gather` with
`return_exceptions=True`), so every unit contributes exactly one result
and no failure aborts the others. -/
def run_all (fileEx : Nat → Bool) (writeOk : Bool) (maxRetries : Nat)
    (envs : Nat → Nat → AttemptEnv) (years : List Nat) : List (Option String) :=
  years.map (fun y => toMessage (fetch_year (fileEx y) writeOk maxRetries (envs y)).2)

/-- Filesystem operations a write routine can perform on the persistence
sink.  `openTrunc p` is `open(p, "w")`, which truncates `p` in place. -/
inductive FsOp where
  | openTrunc (path : String) : FsOp
  | writeData (path : String) : FsOp
  | closeFile (path : String) : FsOp
  | rename (src dst : String) : FsOp
deriving DecidableEq

/-- Filesystem trace of `save_local(data, filepath)`:
`with open(filepath, "w", encoding="utf-8") as f: json.dump(data, f, indent=2)` —
it opens the target path itself for writing (truncating it), dumps the
payload, and closes; there is no temporary path and no rename. -/
def save_local_ops (filepath : String) : List FsOp :=
  [.openTrunc filepath, .writeData filepath, .closeFile filepath]

/-- Does an operation touch the target path (create, truncate, write, or
rename onto it)? -/
def touchesTarget (target : String) : FsOp → Bool
  | .openTrunc p => p == target
  | .writeData p => p == target
  | .closeFile p => p == target
  | .rename _ dst => dst == target

/-- Is the operation a rename onto the target path? -/
def isRenameTo (target : String) : FsOp → Bool
  | .rename _ dst => dst == target
  | _ => false

/-- Modelled from the spec: the atomicity requirement "write-to-temp-then-
rename, or equivalent" — the only operations allowed to touch the target
path are renames onto it, so the target transitions in one step from
absent/old to complete. -/
def spec_atomic_write (ops : List FsOp) (target : String) : Bool :=
  ops.all (fun op => !touchesTarget target op || isRenameTo target op)

/-- State of the artifact at the target path: absent, truncated/partial
(opened for writing but payload not fully written), or complete. -/
inductive FileState where
  | absent : FileState
  | truncated : FileState
  | complete : FileState
deriving DecidableEq

/-- Effect of one filesystem operation on the target path's state:
`open(target, "w")` truncates it, a completed data write makes it
complete, a rename onto it atomically installs a complete artifact. -/
def stepFile (target : String) (st : FileState) : FsOp → FileState
  | .openTrunc p => if p == target then .truncated else st
  | .writeData p => if p == target then .complete else st
  | .closeFile _ => st
  | .rename _ dst => if dst == target then .complete else st

/-- State of the target path after running a sequence of operations. -/
def runOps (target : String) (st : FileState) (ops : List FsOp) : FileState :=
  ops.foldl (stepFile target) st

/-- Python `str.replace` on character lists: replaces every non-overlapping
occurrence of `pat`, scanning left to right.  The fuel argument bounds the
recursion by the length of the scanned list. -/
def pyReplaceAux (pat rep : List Char) : Nat → List Char → List Char
  | 0, s => s
  | _ + 1, [] => []
  | fuel + 1, c :: rest =>
    if pat.isPrefixOf (c :: rest) then
      rep ++ pyReplaceAux pat rep fuel ((c :: rest).drop pat.length)
    else
      c :: pyReplaceAux pat rep fuel rest

/-- Python `s.replace(pat, rep)` on strings. -/
def pyReplace (s pat rep : String) : String :=
  ⟨pyReplaceAux pat.toList rep.toList s.toList.length s.toList⟩

/-- Python `str.lower` for ASCII strings (all schema keys are ASCII). -/
def pyLower (s : String) : String :=
  ⟨s.toList.map (fun c => if 'A' ≤ c ∧ c ≤ 'Z' then Char.ofNat (c.toNat + 32) else c)⟩

/-- The column-rename expression of `process_and_load_data`:
`old.replace('Code', '_code').replace('Name', '_name')
    .replace('Ground', '_ground').replace('upLand', '_up_land').lower()`. -/
def rename_column (old : String) : String :=
  pyLower (pyReplace (pyReplace (pyReplace (pyReplace old "Code" "_code")
    "Name" "_name") "Ground" "_ground") "upLand" "_up_land")

/-- The artifact field names, in the order of `SCHEMA_MAPPING` in
`local_data_ingestion.py`. -/
def schema_keys : List String :=
  ["year", "countryCode", "countryName", "shortName", "isoa2", "record",
   "cropLand", "grazingLand", "forestLand", "fishingGround", "builtupLand",
   "carbon", "value", "score"]

/-- The columns of the `carbon_footprint` DuckDB table created by
`create_target_table`, which are also exactly the columns named by the
`.select(...)` that follows the rename. -/
def target_table_columns : List String :=
  ["year", "country_code", "country_name", "short_name", "isoa2", "record",
   "crop_land", "grazing_land", "forest_land", "fishing_ground",
   "builtup_land", "carbon", "value", "score"]

/-- Helper: in the retry loop, when no attempt environment signals its
transient failure through a 429/5xx status, every backoff sleep in the
trace happens with zero permits held (the exception handlers run outside
the `async with semaphore` block). -/
theorem fetch_loop_no_held_sleep (writeOk : Bool) (envs : Nat → AttemptEnv)
    (h : ∀ i, ¬ isStatusRetry (envs i)) :
    ∀ remaining attempt,
      sleepsWhileHeld 0 (fetch_loop writeOk envs attempt remaining).1 = false := by
  intro remaining
  induction remaining with
  | zero => intro attempt; rfl
  | succ n ih =>
    intro attempt
    have hi := h attempt
    cases he : envs attempt with
    | exc =>
      simp only [fetch_loop, he]
      simp [sleepsWhileHeld, ih (attempt + 1)]
    | resp s m d =>
      rw [he] at hi
      simp only [isStatusRetry] at hi
      simp only [fetch_loop, he]
      rw [if_neg hi]
      by_cases h45 : 400 ≤ s ∧ s < 500
      · rw [if_pos h45]; rfl
      · rw [if_neg h45]
        by_cases h4 : s < 400
        · rw [if_pos h4]
          cases d
          · simp [sleepsWhileHeld, ih (attempt + 1)]
          · cases writeOk <;> rfl
        · rw [if_neg h4]
          simp [sleepsWhileHeld, ih (attempt + 1)]

/-- Helper: when every attempt environment is transient, the retry loop
ends in `exhaustedRetries` and never writes an artifact. -/
theorem fetch_loop_transient (writeOk : Bool) (envs : Nat → AttemptEnv)
    (h : ∀ i, isTransientEnv (envs i)) :
    ∀ remaining attempt,
      (fetch_loop writeOk envs attempt remaining).2 = .exhaustedRetries ∧
      Ev.writeArtifact ∉ (fetch_loop writeOk envs attempt remaining).1 := by
  intro remaining
  induction remaining with
  | zero => intro attempt; exact ⟨rfl, by simp [fetch_loop]⟩
  | succ n ih =>
    intro attempt
    have hi := h attempt
    cases he : envs attempt with
    | exc =>
      simp only [fetch_loop, he]
      exact ⟨(ih (attempt + 1)).1, by simpa using (ih (attempt + 1)).2⟩
    | resp s m d =>
      rw [he] at hi
      simp only [isTransientEnv] at hi
      simp only [fetch_loop, he]
      rcases hi with h429 | h5xx | ⟨hlt, hd⟩
      · rw [if_pos (Or.inl h429)]
        exact ⟨(ih (attempt + 1)).1, by simpa using (ih (attempt + 1)).2⟩
      · rw [if_pos (Or.inr h5xx)]
        exact ⟨(ih (attempt + 1)).1, by simpa using (ih (attempt + 1)).2⟩
      · rw [if_neg (by omega), if_neg (by omega), if_pos hlt, hd]
        simp only [Bool.false_eq_true, if_false]
        exact ⟨(ih (attempt + 1)).1, by simpa using (ih (attempt + 1)).2⟩

/-- C1 (counterexample): a unit that receives 429 on its attempts performs
the backoff sleep while still holding a Concurrency Gate permit — the
`await asyncio.sleep(delay)` for the 429/5xx branch sits inside the
`async with semaphore` block, refuting the claimed invariant. -/
theorem fetch_sleep_under_permit_on_429 :
    sleepsWhileHeld 0 (fetch_year false true 5
      (fun _ => AttemptEnv.resp 429 "Too Many Requests" true)).1 = true := by decide

/-- C1 (amended): the backoff sleep is performed outside the held permit
only on the exception-based transient paths (network/timeout errors and
body-decode errors, whose handlers run after the semaphore context exits);
whenever no attempt fails with a 429/5xx status, no backoff sleep happens
while a permit is held.  (On 429/5xx responses the code sleeps while still
holding the permit.) -/
theorem fetch_backoff_sleep_outside_permit (fileEx writeOk : Bool)
    (maxRetries : Nat) (envs : Nat → AttemptEnv)
    (h : ∀ i, ¬ isStatusRetry (envs i)) :
    sleepsWhileHeld 0 (fetch_year fileEx writeOk maxRetries envs).1 = false := by
  cases fileEx
  · exact fetch_loop_no_held_sleep writeOk envs h maxRetries 1
  · rfl

/-- Witness for C1's amended theorem at a concrete run: three attempts,
each raising a transport exception. -/
theorem fetch_backoff_sleep_outside_permit_witness :
    sleepsWhileHeld 0 (fetch_year false true 3 (fun _ => AttemptEnv.exc)).1 = false :=
  fetch_backoff_sleep_outside_permit false true 3 (fun _ => AttemptEnv.exc)
    (fun _ hi => hi)

/-- C2 (confirmed): a first attempt answered by a 4xx status other than
429 makes `fetch_year` return the permanent failure carrying that status
and message verbatim, after exactly one attempt — the whole trace is one
acquire/call/release block, with no backoff sleep and no artifact write. -/
theorem fetch_permanent_failure_single_attempt (writeOk : Bool) (maxRetries : Nat)
    (envs : Nat → AttemptEnv) (s : Nat) (m : String) (d : Bool)
    (h1 : envs 1 = .resp s m d) (h400 : 400 ≤ s) (h500 : s < 500)
    (h429 : s ≠ 429) (hmr : 1 ≤ maxRetries) :
    fetch_year false writeOk maxRetries envs
      = ([.acquire, .netCall, .release], .permanentFailure s m) := by
  cases maxRetries with
  | zero => omega
  | succ k =>
    show fetch_loop writeOk envs 1 (k + 1) = _
    simp only [fetch_loop, h1]
    rw [if_neg (by omega), if_pos ⟨h400, h500⟩]

/-- Witness for C2 at 404 "Not Found" with the default `max_retries = 5`. -/
theorem fetch_permanent_failure_single_attempt_witness :
    fetch_year false true 5 (fun _ => AttemptEnv.resp 404 "Not Found" true)
      = ([Ev.acquire, Ev.netCall, Ev.release], FetchResult.permanentFailure 404 "Not Found") :=
  fetch_permanent_failure_single_attempt true 5 _ 404 "Not Found" true rfl
    (by norm_num) (by norm_num) (by norm_num) (by norm_num)

/-- C3 (confirmed): when the target artifact already exists, `fetch_year`
returns immediately with the skipped outcome — the trace is empty, so zero
network calls and zero writes — and the returned `Optional[str]` is `None`,
which `main` counts as a success. -/
theorem fetch_skips_existing_artifact (writeOk : Bool) (maxRetries : Nat)
    (envs : Nat → AttemptEnv) :
    fetch_year true writeOk maxRetries envs = ([], .skipped) ∧
    toMessage (fetch_year true writeOk maxRetries envs).2 = none :=
  ⟨rfl, rfl⟩

/-- C4 (confirmed): if every attempt ends in a transient failure (429,
5xx, transport exception, or body-decode error), `fetch_year` returns
`ExhaustedRetries` and its trace contains no artifact write. -/
theorem fetch_all_transient_exhausts_retries (writeOk : Bool) (maxRetries : Nat)
    (envs : Nat → AttemptEnv) (h : ∀ i, isTransientEnv (envs i)) :
    (fetch_year false writeOk maxRetries envs).2 = .exhaustedRetries ∧
    Ev.writeArtifact ∉ (fetch_year false writeOk maxRetries envs).1 :=
  fetch_loop_transient writeOk envs h maxRetries 1

/-- Witness for C4: 429 on every one of the five attempts. -/
theorem fetch_all_transient_exhausts_retries_witness :
    (fetch_year false true 5 (fun _ => AttemptEnv.resp 429 "Too Many Requests" true)).2
      = FetchResult.exhaustedRetries ∧
    Ev.writeArtifact ∉ (fetch_year false true 5
      (fun _ => AttemptEnv.resp 429 "Too Many Requests" true)).1 :=
  fetch_all_transient_exhausts_retries true 5 _ (fun _ => Or.inl rfl)

/-- C5 (confirmed): for every delay `d > 0` and every jitter draw in
`[0, 1)`, the next delay computed by `increase_delay` is nonnegative and
capped at 60 seconds. -/
theorem increase_delay_bounds (d j : ℚ) (hd : 0 < d) (hj0 : 0 ≤ j) (_hj1 : j < 1) :
    0 ≤ increase_delay d j ∧ increase_delay d j ≤ 60 :=
  ⟨le_min (mul_nonneg (mul_nonneg hd.le (by norm_num)) hj0) (by norm_num),
   min_le_right _ _⟩

/-- Witness for C5 at delay 1 and jitter 1/2. -/
theorem increase_delay_bounds_witness :
    0 ≤ increase_delay 1 (1/2) ∧ increase_delay 1 (1/2) ≤ 60 :=
  increase_delay_bounds 1 (1/2) (by norm_num) (by norm_num) (by norm_num)

/-- C6 (counterexample): the jitter draw 0 is a possible value of
`random.uniform(0.0, 1.0)`, and at delay 1 it makes `increase_delay`
return exactly 0, refuting "strictly `next(d) > 0`". -/
theorem increase_delay_zero_jitter_counterexample :
    (0 : ℚ) < 1 ∧ (0 : ℚ) ≤ 0 ∧ ¬ (0 < increase_delay 1 0) := by
  refine ⟨by norm_num, le_refl 0, ?_⟩
  norm_num [increase_delay]

/-- C6 (amended): the next delay is never negative, and it is strictly
positive whenever the current delay and the jitter draw are both strictly
positive; a zero jitter draw yields a zero delay. -/
theorem increase_delay_pos_of_pos_jitter (d j : ℚ) (hd : 0 < d) (hj : 0 < j) :
    0 < increase_delay d j :=
  lt_min (by positivity) (by norm_num)

/-- Witness for C6's amended theorem at delay 1 and jitter 1/2. -/
theorem increase_delay_pos_of_pos_jitter_witness :
    0 < increase_delay 1 (1/2) :=
  increase_delay_pos_of_pos_jitter 1 (1/2) (by norm_num) (by norm_num)

/-- C7 (counterexample): a run with one permanently failed unit has
`failures = 1 > 0`, yet the process exit status is 0 — `main` only logs on
failure and never calls `sys.exit`, refuting "nonzero exit status iff at
least one unit failed". -/
theorem exit_code_zero_despite_failure :
    0 < count_failures [some "Permanent HTTP Error: 404 - Not Found"] ∧
    process_exit_code [some "Permanent HTTP Error: 404 - Not Found"] = 0 := by
  exact ⟨by decide, by decide⟩

/-- C7 (amended): every unit of the worklist contributes exactly one
outcome to the summary (failures never abort the run before all units
finish), the summary counts satisfy `successes + failures = total`, and
the process exit status is 0 whether or not any unit failed — failure is
reported through the log, not the exit status. -/
theorem run_completes_all_units_exit_zero (fileEx : Nat → Bool) (writeOk : Bool)
    (maxRetries : Nat) (envs : Nat → Nat → AttemptEnv) (years : List Nat) :
    (run_summary (run_all fileEx writeOk maxRetries envs years)).total = years.length ∧
    (run_summary (run_all fileEx writeOk maxRetries envs years)).successes +
      (run_summary (run_all fileEx writeOk maxRetries envs years)).failures =
      (run_summary (run_all fileEx writeOk maxRetries envs years)).total ∧
    process_exit_code (run_all fileEx writeOk maxRetries envs years) = 0 := by
  refine ⟨by simp [run_summary, run_all], ?_, by simp [process_exit_code]⟩
  have hle : count_failures (run_all fileEx writeOk maxRetries envs years) ≤
      (run_all fileEx writeOk maxRetries envs years).length := by
    simpa [count_failures] using
      List.length_filter_le (fun r => r.isSome) (run_all fileEx writeOk maxRetries envs years)
  simp [run_summary, Nat.sub_add_cancel hle]

/-- C8 (counterexample): `save_local` fails the spec's atomicity
requirement at the concrete artifact path of year 2000 — its very first
filesystem operation opens (and truncates) the target path itself instead
of touching only a temporary path and renaming. -/
theorem save_local_not_atomic_counterexample :
    spec_atomic_write (save_local_ops "local_storage/raw/data_all_2000.json")
      "local_storage/raw/data_all_2000.json" = false := by decide

/-- C8 (amended): the artifact write is not atomic: `save_local` opens the
target path directly for writing, so there is a prefix of its operations
(cancellation point) after which the target path holds a truncated
artifact. -/
theorem save_local_direct_write_truncation (filepath : String) :
    spec_atomic_write (save_local_ops filepath) filepath = false ∧
    ∃ pre suf, save_local_ops filepath = pre ++ suf ∧
      runOps filepath .absent pre = .truncated := by
  refine ⟨?_, [FsOp.openTrunc filepath],
    [FsOp.writeData filepath, FsOp.closeFile filepath], rfl, ?_⟩
  · simp [spec_atomic_write, save_local_ops, touchesTarget, isRenameTo]
  · simp [runOps, stepFile]

/-- C9 (code bug): the chained `.replace(...)` rename of
`process_and_load_data` maps `countryCode`-style keys correctly but sends
`cropLand`, `grazingLand`, `forestLand` to `cropland`, `grazingland`,
`forestland` and `builtupLand` to `built_up_land`, so the renamed columns
do not match the `carbon_footprint` table columns (which the very next
`.select` in the same function requires: `crop_land`, `grazing_land`,
`forest_land`, `builtup_land`). -/
theorem rename_column_mismatch :
    rename_column "countryCode" = "country_code" ∧
    rename_column "fishingGround" = "fishing_ground" ∧
    rename_column "cropLand" = "cropland" ∧
    rename_column "grazingLand" = "grazingland" ∧
    rename_column "forestLand" = "forestland" ∧
    rename_column "builtupLand" = "built_up_land" ∧
    "crop_land" ∉ schema_keys.map rename_column ∧
    schema_keys.map rename_column ≠ target_table_columns := by decide

/-- C10 (confirmed): when the persistence sink rejects the write,
`save_local` swallows the `IOError` (logging only), and `fetch_year`
still returns the success outcome — counted as a success by `main` —
while no artifact write appears in the trace. -/
theorem write_failure_still_success (maxRetries : Nat) (envs : Nat → AttemptEnv)
    (s : Nat) (m : String) (h1 : envs 1 = .resp s m true) (hs : s < 400)
    (hmr : 1 ≤ maxRetries) :
    (fetch_year false false maxRetries envs).2 = .success ∧
    toMessage (fetch_year false false maxRetries envs).2 = none ∧
    Ev.writeArtifact ∉ (fetch_year false false maxRetries envs).1 := by
  cases maxRetries with
  | zero => omega
  | succ k =>
    have hy : fetch_year false false (k + 1) envs
        = ([.acquire, .netCall, .writeFail, .sleepPacing, .release], .success) := by
      show fetch_loop false envs 1 (k + 1) = _
      simp only [fetch_loop, h1]
      rw [if_neg (by omega), if_neg (by omega), if_pos hs]
      simp
    rw [hy]
    exact ⟨rfl, rfl, by decide⟩

/-- Witness for C10: a 200 response with a decodable body and a broken
sink, with the default `max_retries = 5`. -/
theorem write_failure_still_success_witness :
    (fetch_year false false 5 (fun _ => AttemptEnv.resp 200 "OK" true)).2
      = FetchResult.success ∧
    toMessage (fetch_year false false 5 (fun _ => AttemptEnv.resp 200 "OK" true)).2 = none ∧
    Ev.writeArtifact ∉ (fetch_year false false 5 (fun _ => AttemptEnv.resp 200 "OK" true)).1 :=
  write_failure_still_success 5 _ 200 "OK" rfl (by norm_num) (by norm_num)

